import Mathlib

/-
Verification development for the Itinero travel-planning backend.

Shallow embedding of the core pure logic of the repository:
  * backend/agents/budget_agent.py        (optimize_budget)
  * backend/utils/dependency_map.py       (DEPENDENCY_MAP, get_affected_agents)
  * backend/utils/itinerary_builder.py    (build_itinerary and helpers)
  * backend/agents/agent_tracker.py       (AgentTracker, ToolCallRecord)
  * backend/agents/orchestrator.py        (_extract_result_text, post_tool_use
                                           hook, run_replan, _session_to_response)

Python floats are modelled as exact rationals, Python ints as Lean integers,
calendar dates as day ordinals (an integer), Python dicts as association
lists, Python sets as lists read up to membership.  Python values of type
Any (as delivered to the tool-response hooks) are modelled by the inductive
PyVal, with a constructor pother standing for arbitrary non-JSON-serializable
Python objects.
-/

/-! ## Characters used in literals (kept out of string literals) -/

def quoteChar : Char := Char.ofNat 34

def backslashChar : Char := Char.ofNat 92

def lbraceChar : Char := Char.ofNat 123

def rbraceChar : Char := Char.ofNat 125

def singleQuoteChar : Char := Char.ofNat 39

/-! ## Python string primitives -/

/-- Python str.lower(), restricted to ASCII case mapping. -/
def pyLower (s : String) : String := String.mk (s.data.map Char.toLower)

/-- Python str.upper() on the first character, as used by str.capitalize(). -/
def pyCapitalize (s : String) : String :=
  match s.data with
  | [] => ""
  | c :: t => String.mk (c.toUpper :: t.map Char.toLower)

/-- Python str.strip(): remove leading and trailing whitespace. -/
def pyStrip (s : String) : String :=
  String.mk (((s.data.dropWhile Char.isWhitespace).reverse.dropWhile
    Char.isWhitespace).reverse)

/-- Python substring membership: needle in hay (contiguous). -/
def containsSlice : List Char → List Char → Bool
  | needle, [] => needle.isEmpty
  | needle, h :: t => needle.isPrefixOf (h :: t) || containsSlice needle t

/-- Python needle in hay for strings. -/
def strIn (needle hay : String) : Bool := containsSlice needle.data hay.data

/-! ## Python values (the Any type reaching the tool-response hooks)

A mutual inductive is used instead of nesting List inside the inductive so
that all recursions over it are structural and kernel-computable. -/

mutual
inductive PyVal where
  | pnone : PyVal
  | pbool : Bool → PyVal
  | pnum : ℚ → PyVal
  | pstr : String → PyVal
  | plist : PyList → PyVal
  | pdict : PyDict → PyVal
  | pother : String → PyVal
inductive PyList where
  | nil : PyList
  | cons : PyVal → PyList → PyList
inductive PyDict where
  | nil : PyDict
  | cons : String → PyVal → PyDict → PyDict
end

/-- Convenience constructor: a Python list literal. -/
def pylist (xs : List PyVal) : PyVal :=
  PyVal.plist (xs.foldr PyList.cons PyList.nil)

/-- Convenience constructor: a Python dict literal. -/
def pydict (kvs : List (String × PyVal)) : PyVal :=
  PyVal.pdict (kvs.foldr (fun p t => PyDict.cons p.1 p.2 t) PyDict.nil)

/-- Python dict.get(k): first binding wins (dict keys are unique anyway). -/
def dictGet : PyDict → String → Option PyVal
  | PyDict.nil, _ => none
  | PyDict.cons k v t, key => if k = key then some v else dictGet t key

/-- Python truthiness of a value, as used by the if result_text check. -/
def pyTruthy : PyVal → Bool
  | PyVal.pnone => false
  | PyVal.pbool b => b
  | PyVal.pnum q => decide (q ≠ 0)
  | PyVal.pstr s => !s.isEmpty
  | PyVal.plist PyList.nil => false
  | PyVal.plist (PyList.cons _ _) => true
  | PyVal.pdict PyDict.nil => false
  | PyVal.pdict (PyDict.cons _ _ _) => true
  | PyVal.pother _ => true

/-! ## json.dumps (CPython defaults: ensure_ascii, separators comma-space
and colon-space).  Returns none where CPython raises TypeError, i.e. on any
value containing a non-serializable object. -/

def hexDigitChar (n : ℕ) : Char :=
  if n < 10 then Char.ofNat (48 + n) else Char.ofNat (87 + n)

def escapeJsonChar (c : Char) : List Char :=
  if c = quoteChar then [backslashChar, quoteChar]
  else if c = backslashChar then [backslashChar, backslashChar]
  else if c = Char.ofNat 10 then [backslashChar, 'n']
  else if c = Char.ofNat 9 then [backslashChar, 't']
  else if c = Char.ofNat 13 then [backslashChar, 'r']
  else if c = Char.ofNat 8 then [backslashChar, 'b']
  else if c = Char.ofNat 12 then [backslashChar, 'f']
  else if c.toNat < 32 || c.toNat > 126 then
    [backslashChar, 'u', hexDigitChar (c.toNat / 4096 % 16),
      hexDigitChar (c.toNat / 256 % 16), hexDigitChar (c.toNat / 16 % 16),
      hexDigitChar (c.toNat % 16)]
  else [c]

def jsonQuote (s : String) : String :=
  String.mk ([quoteChar] ++ s.data.flatMap escapeJsonChar ++ [quoteChar])

/-- Rendering of a Python number (int and float are merged into ℚ in this
model; a non-integral rational is rendered as a fraction, which stands in
for CPython float repr — no proved statement depends on this rendering). -/
def renderNum (q : ℚ) : String :=
  if q.den = 1 then toString q.num
  else toString q.num ++ "/" ++ toString q.den

mutual
def dumpsJson : PyVal → Option String
  | PyVal.pnone => some "null"
  | PyVal.pbool true => some "true"
  | PyVal.pbool false => some "false"
  | PyVal.pnum q => some (renderNum q)
  | PyVal.pstr s => some (jsonQuote s)
  | PyVal.pother _ => none
  | PyVal.plist xs =>
    match dumpsJsonList xs with
    | some parts => some ("[" ++ String.intercalate ", " parts ++ "]")
    | none => none
  | PyVal.pdict kvs =>
    match dumpsJsonDict kvs with
    | some parts =>
      some (String.mk [lbraceChar] ++ String.intercalate ", " parts ++
        String.mk [rbraceChar])
    | none => none
def dumpsJsonList : PyList → Option (List String)
  | PyList.nil => some []
  | PyList.cons v t =>
    match dumpsJson v, dumpsJsonList t with
    | some s, some r => some (s :: r)
    | _, _ => none
def dumpsJsonDict : PyDict → Option (List String)
  | PyDict.nil => some []
  | PyDict.cons k v t =>
    match dumpsJson v, dumpsJsonDict t with
    | some s, some r => some ((jsonQuote k ++ ": " ++ s) :: r)
    | _, _ => none
end

/- Python str() of a value (repr-style for containers; total).  Only the
shape matters to any proved statement, never the exact rendering. -/
mutual
def pyRepr : PyVal → String
  | PyVal.pnone => "None"
  | PyVal.pbool true => "True"
  | PyVal.pbool false => "False"
  | PyVal.pnum q => renderNum q
  | PyVal.pstr s =>
    String.mk ([singleQuoteChar] ++ s.data ++ [singleQuoteChar])
  | PyVal.pother r => r
  | PyVal.plist xs =>
    "[" ++ String.intercalate ", " (pyReprList xs) ++ "]"
  | PyVal.pdict kvs =>
    String.mk [lbraceChar] ++ String.intercalate ", " (pyReprDict kvs) ++
      String.mk [rbraceChar]
def pyReprList : PyList → List String
  | PyList.nil => []
  | PyList.cons v t => pyRepr v :: pyReprList t
def pyReprDict : PyDict → List String
  | PyDict.nil => []
  | PyDict.cons k v t =>
    (String.mk ([singleQuoteChar] ++ k.data ++ [singleQuoteChar]) ++ ": " ++
      pyRepr v) :: pyReprDict t
end

/-! ## json.loads: a fuel-bounded recursive-descent JSON reader producing a
PyVal.  Returns none where CPython raises json.JSONDecodeError. -/

def skipWs (cs : List Char) : List Char :=
  cs.dropWhile
    (fun c => c == ' ' || c == Char.ofNat 9 || c == Char.ofNat 10 ||
      c == Char.ofNat 13)

def parseHexDigit (c : Char) : Option ℕ :=
  if c.isDigit then some (c.toNat - 48)
  else if 'a' ≤ c && c ≤ 'f' then some (c.toNat - 87)
  else if 'A' ≤ c && c ≤ 'F' then some (c.toNat - 55)
  else none

def parseJsonStringBody : List Char → List Char → Option (String × List Char)
  | _, [] => none
  | acc, c :: rest =>
    if c = quoteChar then some (String.mk acc.reverse, rest)
    else if c = backslashChar then
      match rest with
      | [] => none
      | e :: rest2 =>
        if e = quoteChar then parseJsonStringBody (quoteChar :: acc) rest2
        else if e = backslashChar then
          parseJsonStringBody (backslashChar :: acc) rest2
        else if e = '/' then parseJsonStringBody ('/' :: acc) rest2
        else if e = 'b' then parseJsonStringBody (Char.ofNat 8 :: acc) rest2
        else if e = 'f' then parseJsonStringBody (Char.ofNat 12 :: acc) rest2
        else if e = 'n' then parseJsonStringBody (Char.ofNat 10 :: acc) rest2
        else if e = 'r' then parseJsonStringBody (Char.ofNat 13 :: acc) rest2
        else if e = 't' then parseJsonStringBody (Char.ofNat 9 :: acc) rest2
        else if e = 'u' then
          match rest2 with
          | a :: b :: c2 :: d :: rest3 =>
            match parseHexDigit a, parseHexDigit b, parseHexDigit c2,
                parseHexDigit d with
            | some ha, some hb, some hc, some hd =>
              parseJsonStringBody
                (Char.ofNat (((ha * 16 + hb) * 16 + hc) * 16 + hd) :: acc)
                rest3
            | _, _, _, _ => none
          | _ => none
        else none
    else parseJsonStringBody (c :: acc) rest

def digitsToNat (cs : List Char) : ℕ :=
  cs.foldl (fun n c => n * 10 + (c.toNat - 48)) 0

/-- Parse the optional exponent part of a JSON number. -/
def parseExponent (cs : List Char) : Option (ℤ × List Char) :=
  match cs with
  | c :: rest =>
    if c = 'e' || c = 'E' then
      match rest with
      | s :: rest2 =>
        if s = '+' || s = '-' then
          let ds := rest2.takeWhile Char.isDigit
          if ds.isEmpty then none
          else
            some (if s = '-' then -(digitsToNat ds : ℤ) else (digitsToNat ds : ℤ),
              rest2.dropWhile Char.isDigit)
        else
          let ds := rest.takeWhile Char.isDigit
          if ds.isEmpty then none
          else some ((digitsToNat ds : ℤ), rest.dropWhile Char.isDigit)
      | [] => none
    else some (0, cs)
  | [] => some (0, cs)

def parseNumber (cs : List Char) : Option (ℚ × List Char) :=
  let signed := match cs with
    | c :: t => if c = '-' then (true, t) else (false, cs)
    | [] => (false, cs)
  let intDigits := signed.2.takeWhile Char.isDigit
  let afterInt := signed.2.dropWhile Char.isDigit
  if intDigits.isEmpty then none
  else
    let fracStep : Option (ℚ × List Char) :=
      match afterInt with
      | c :: t =>
        if c = '.' then
          let fd := t.takeWhile Char.isDigit
          if fd.isEmpty then none
          else
            some ((digitsToNat fd : ℚ) / ((10 : ℚ) ^ fd.length),
              t.dropWhile Char.isDigit)
        else some (0, afterInt)
      | [] => some (0, afterInt)
    match fracStep with
    | none => none
    | some (fv, afterFrac) =>
      match parseExponent afterFrac with
      | none => none
      | some (e, rest) =>
        let mag : ℚ := ((digitsToNat intDigits : ℚ) + fv) * (10 : ℚ) ^ e
        some (if signed.1 then -mag else mag, rest)

mutual
def parseVal : ℕ → List Char → Option (PyVal × List Char)
  | 0, _ => none
  | fuel + 1, cs =>
    match skipWs cs with
    | [] => none
    | c :: rest =>
      if c = 'n' then
        match rest with
        | 'u' :: 'l' :: 'l' :: r => some (PyVal.pnone, r)
        | _ => none
      else if c = 't' then
        match rest with
        | 'r' :: 'u' :: 'e' :: r => some (PyVal.pbool true, r)
        | _ => none
      else if c = 'f' then
        match rest with
        | 'a' :: 'l' :: 's' :: 'e' :: r => some (PyVal.pbool false, r)
        | _ => none
      else if c = quoteChar then
        match parseJsonStringBody [] rest with
        | some (s, r) => some (PyVal.pstr s, r)
        | none => none
      else if c = '[' then
        match skipWs rest with
        | c2 :: r2 =>
          if c2 = ']' then some (PyVal.plist PyList.nil, r2)
          else
            match parseArrItems fuel (skipWs rest) with
            | some (xs, r3) => some (PyVal.plist xs, r3)
            | none => none
        | [] => none
      else if c = lbraceChar then
        match skipWs rest with
        | c2 :: r2 =>
          if c2 = rbraceChar then some (PyVal.pdict PyDict.nil, r2)
          else
            match parseObjItems fuel (skipWs rest) with
            | some (kvs, r3) => some (PyVal.pdict kvs, r3)
            | none => none
        | [] => none
      else if c = '-' || c.isDigit then
        match parseNumber (c :: rest) with
        | some (q, r) => some (PyVal.pnum q, r)
        | none => none
      else none
def parseArrItems : ℕ → List Char → Option (PyList × List Char)
  | 0, _ => none
  | fuel + 1, cs =>
    match parseVal fuel cs with
    | none => none
    | some (v, r1) =>
      match skipWs r1 with
      | c :: r2 =>
        if c = ',' then
          match parseArrItems fuel r2 with
          | some (xs, r3) => some (PyList.cons v xs, r3)
          | none => none
        else if c = ']' then some (PyList.cons v PyList.nil, r2)
        else none
      | [] => none
def parseObjItems : ℕ → List Char → Option (PyDict × List Char)
  | 0, _ => none
  | fuel + 1, cs =>
    match skipWs cs with
    | c :: rest =>
      if c = quoteChar then
        match parseJsonStringBody [] rest with
        | none => none
        | some (k, r1) =>
          match skipWs r1 with
          | c2 :: r2 =>
            if c2 = ':' then
              match parseVal fuel r2 with
              | none => none
              | some (v, r3) =>
                match skipWs r3 with
                | c3 :: r4 =>
                  if c3 = ',' then
                    match parseObjItems fuel r4 with
                    | some (kvs, r5) => some (PyDict.cons k v kvs, r5)
                    | none => none
                  else if c3 = rbraceChar then
                    some (PyDict.cons k v PyDict.nil, r4)
                  else none
                | [] => none
            else none
          | [] => none
      else none
    | [] => none
end

/-- Python json.loads: parse, requiring the whole input to be consumed up to
trailing whitespace.  none models json.JSONDecodeError. -/
def jsonLoads (s : String) : Option PyVal :=
  match parseVal (s.data.length + 4) s.data with
  | some (v, rest) => if (skipWs rest).isEmpty then some v else none
  | none => none

/-! ## Budget agent (backend/agents/budget_agent.py)

Multiplier applied to the stated budget to get the planning ceiling;
luxury is effectively uncapped. -/

def STYLE_MULTIPLIERS : List (String × ℚ) :=
  [("affordable", 0.80), ("standard", 1.00), ("premium", 1.20),
   ("luxury", 999.0)]

def MIN_FOOD_PER_DAY : ℚ := 15.0

def MIN_ACTIVITIES_PER_DAY : ℚ := 5.0

/-- style = travel_style.lower().strip() from optimize_budget. -/
def styleOf (travel_style : String) : String := pyStrip (pyLower travel_style)

/-- STYLE_MULTIPLIERS.get(style, 1.0). -/
def styleMultiplier (style : String) : ℚ :=
  (STYLE_MULTIPLIERS.lookup style).getD 1.0

/-- The num_days <= 0 coercion at the top of optimize_budget. -/
def coercedDays (num_days : ℤ) : ℤ := if num_days ≤ 0 then 1 else num_days

def effective_budget (total_budget : ℚ) (travel_style : String) : ℚ :=
  total_budget * styleMultiplier (styleOf travel_style)

def discretionary (transport_cost hotel_cost total_budget : ℚ)
    (travel_style : String) : ℚ :=
  max (effective_budget total_budget travel_style - transport_cost - hotel_cost) 0

def food_cost (transport_cost hotel_cost : ℚ) (num_days : ℤ)
    (total_budget : ℚ) (travel_style : String) : ℚ :=
  max (discretionary transport_cost hotel_cost total_budget travel_style * 0.60)
    (MIN_FOOD_PER_DAY * (coercedDays num_days : ℚ))

def activities_cost (transport_cost hotel_cost : ℚ) (num_days : ℤ)
    (total_budget : ℚ) (travel_style : String) : ℚ :=
  max (discretionary transport_cost hotel_cost total_budget travel_style * 0.40)
    (MIN_ACTIVITIES_PER_DAY * (coercedDays num_days : ℚ))

def estimated_total (transport_cost hotel_cost : ℚ) (num_days : ℤ)
    (total_budget : ℚ) (travel_style : String) : ℚ :=
  transport_cost + hotel_cost +
    food_cost transport_cost hotel_cost num_days total_budget travel_style +
    activities_cost transport_cost hotel_cost num_days total_budget travel_style

def remaining_budget (transport_cost hotel_cost : ℚ) (num_days : ℤ)
    (total_budget : ℚ) (travel_style : String) : ℚ :=
  total_budget -
    estimated_total transport_cost hotel_cost num_days total_budget travel_style

/-- The status classification block of optimize_budget. -/
def budget_status (transport_cost hotel_cost : ℚ) (num_days : ℤ)
    (total_budget : ℚ) (travel_style : String) : String :=
  if styleOf travel_style = "luxury" then "balanced"
  else if estimated_total transport_cost hotel_cost num_days total_budget
      travel_style > effective_budget total_budget travel_style * 1.05 then
    "over"
  else if estimated_total transport_cost hotel_cost num_days total_budget
      travel_style < effective_budget total_budget travel_style * 0.80 then
    "under"
  else "balanced"

/-! CPython round(x, 2) and the float format specs used in suggestion
strings, on the exact-rational model: round half to even. -/

def roundHalfEven (x : ℚ) : ℤ :=
  let f := Int.floor x
  let r := x - f
  if r < 1 / 2 then f
  else if 1 / 2 < r then f + 1
  else if f % 2 = 0 then f
  else f + 1

def round2 (x : ℚ) : ℚ := ((roundHalfEven (x * 100) : ℤ) : ℚ) / 100

/-- Group the reversed digit list of a number in threes, comma-separated. -/
def group3 : List Char → List Char
  | a :: b :: c :: d :: rest => a :: b :: c :: ',' :: group3 (d :: rest)
  | l => l

def intComma (n : ℤ) : String :=
  (if n < 0 then "-" else "") ++
    String.mk ((group3 (toString n.natAbs).data.reverse).reverse)

/-- Python format spec comma-dot-0-f. -/
def fmtComma0 (x : ℚ) : String := intComma (roundHalfEven x)

/-- Python format spec dot-0-f. -/
def fmt0 (x : ℚ) : String :=
  (if roundHalfEven x < 0 then "-" else "") ++
    toString (roundHalfEven x).natAbs

/-- _generate_suggestions from budget_agent.py.  Local parameter names
shadow the global cost definitions on purpose, mirroring the source. -/
def _generate_suggestions (status : String)
    (transport_cost hotel_cost food_cost activities_cost estimated_total
      total_budget effective_budget remaining : ℚ)
    (num_days : ℤ) (travel_style : String) (destination : String)
    (is_luxury : Bool) : List String :=
  let overage := estimated_total - total_budget
  let style_label := pyCapitalize travel_style
  let food_per_day := food_cost / ((max num_days 1 : ℤ) : ℚ)
  let activities_per_day := activities_cost / ((max num_days 1 : ℤ) : ℚ)
  if is_luxury then
    let base :=
      ["Luxury style — no budget ceiling. Estimated spend: $" ++
        fmtComma0 estimated_total ++ " for " ++ toString num_days ++
        " days in " ++ destination ++ ".",
       "Dining: ~$" ++ fmtComma0 food_per_day ++ "/day · Experiences: ~$" ++
        fmtComma0 activities_per_day ++ "/day. " ++
        "Consider Michelin-starred restaurants, private tours, and premium transfers."]
    if remaining > 0 then
      base ++
        ["You still have $" ++ fmtComma0 remaining ++ " of your stated $" ++
          fmtComma0 total_budget ++ " budget available."]
    else base
  else if status = "over" then
    let s1 :=
      [style_label ++ " plan is $" ++ fmtComma0 |overage| ++ " over your $" ++
        fmtComma0 total_budget ++ " budget. Ways to bring it down:"]
    let s2 :=
      if transport_cost > total_budget * 0.35 then
        ["Flights ($" ++ fmtComma0 transport_cost ++ ") consume " ++
          fmt0 (transport_cost / total_budget * 100) ++
          "% of your budget. Try economy class, flexible dates, or alternate airports."]
      else []
    let avg_nightly := hotel_cost / ((max num_days 1 : ℤ) : ℚ)
    let s3 :=
      if hotel_cost > total_budget * 0.30 then
        ["Hotel ($" ++ fmtComma0 hotel_cost ++ ", ~$" ++ fmtComma0 avg_nightly ++
          "/night) is a major expense. " ++
          "Consider a neighboring district or a well-rated 3-star option."]
      else []
    let s4 :=
      ["Dining is estimated at ~$" ++ fmtComma0 food_per_day ++
        "/day. Eat breakfast at the hotel and choose local lunch spots to save."]
    s1 ++ s2 ++ s3 ++ s4
  else if status = "under" then
    let upgrade_per_night := remaining * 0.4 / ((max num_days 1 : ℤ) : ℚ)
    [style_label ++ " plan uses $" ++ fmtComma0 estimated_total ++ " of $" ++
      fmtComma0 total_budget ++ " — you have $" ++ fmtComma0 remaining ++
      " to spare. Upgrade ideas:",
     "Upgrade your hotel by ~$" ++ fmtComma0 upgrade_per_night ++
      "/night for a better location or amenities.",
     "Add a premium experience: private guided tour, fine-dining reservation, " ++
      "or a day trip from " ++ destination ++ " (~$" ++
      fmtComma0 (remaining * 0.25) ++ ")."]
  else
    [style_label ++ " plan is well-balanced at $" ++ fmtComma0 estimated_total ++
      " against a $" ++ fmtComma0 total_budget ++ " budget " ++
      "(effective target: $" ++ fmtComma0 effective_budget ++ ").",
     "Dining: ~$" ++ fmtComma0 food_per_day ++ "/day · Experiences: ~$" ++
      fmtComma0 activities_per_day ++ "/day."]

structure CostBreakdown where
  transport_usd : ℚ
  hotel_usd : ℚ
  food_usd : ℚ
  activities_usd : ℚ

structure BudgetOutput where
  breakdown : CostBreakdown
  estimated_total_usd : ℚ
  total_budget_usd : ℚ
  remaining_budget_usd : ℚ
  status : String
  suggestions : List String

/-- optimize_budget from budget_agent.py (async in the source; pure here). -/
def optimize_budget (transport_cost hotel_cost : ℚ) (destination : String)
    (num_days : ℤ) (total_budget : ℚ) (travel_style : String) : BudgetOutput :=
  let style := styleOf travel_style
  let is_luxury := style == "luxury"
  { breakdown :=
      { transport_usd := round2 transport_cost,
        hotel_usd := round2 hotel_cost,
        food_usd :=
          round2 (food_cost transport_cost hotel_cost num_days total_budget
            travel_style),
        activities_usd :=
          round2 (activities_cost transport_cost hotel_cost num_days
            total_budget travel_style) },
    estimated_total_usd :=
      round2 (estimated_total transport_cost hotel_cost num_days total_budget
        travel_style),
    total_budget_usd := round2 total_budget,
    remaining_budget_usd :=
      round2 (remaining_budget transport_cost hotel_cost num_days total_budget
        travel_style),
    status := budget_status transport_cost hotel_cost num_days total_budget
      travel_style,
    suggestions :=
      _generate_suggestions
        (budget_status transport_cost hotel_cost num_days total_budget
          travel_style)
        transport_cost hotel_cost
        (food_cost transport_cost hotel_cost num_days total_budget travel_style)
        (activities_cost transport_cost hotel_cost num_days total_budget
          travel_style)
        (estimated_total transport_cost hotel_cost num_days total_budget
          travel_style)
        total_budget (effective_budget total_budget travel_style)
        (remaining_budget transport_cost hotel_cost num_days total_budget
          travel_style)
        (coercedDays num_days) style destination is_luxury }

/-! ## Dependency map (backend/utils/dependency_map.py) -/

def DEPENDENCY_MAP : List (String × List String) :=
  [("preferences", ["discovery", "itinerary"]),
   ("dislikes", ["discovery", "itinerary"]),
   ("budget_usd", ["budget", "itinerary"]),
   ("origin", ["transport", "budget", "itinerary"]),
   ("destination",
     ["weather", "transport", "hotel", "discovery", "budget", "itinerary"]),
   ("dates", ["weather", "transport", "hotel", "budget", "itinerary"]),
   ("start_date", ["weather", "transport", "hotel", "budget", "itinerary"]),
   ("end_date", ["weather", "transport", "hotel", "budget", "itinerary"])]

/-- get_affected_agents: union over the changed fields of the dependency
table entries; the Python set is modelled as a duplicate-free list read up
to membership. -/
def get_affected_agents (changed_fields : List String) : List String :=
  (changed_fields.flatMap (fun f => (DEPENDENCY_MAP.lookup f).getD [])).dedup

/-! ## Data model (backend/models/model.py), floats as ℚ, dates as day
ordinals in ℤ -/

structure DailyForecast where
  date : ℤ
  avg_temp_c : ℚ
  dominant_condition : String
  max_rain_probability : ℚ
  summary : String

structure WeatherOutput where
  daily_forecasts : List DailyForecast
  outdoor_viable : Bool
  summary : String

structure FlightLeg where
  airline : String
  flight_number : String
  departure_airport : String
  arrival_airport : String
  departure_time : String
  arrival_time : String
  duration_minutes : ℤ

structure FlightOption where
  price_usd : ℚ
  airlines : List String
  total_duration_minutes : ℤ
  stops : ℤ
  legs : List FlightLeg
  tag : String

structure TransportOutput where
  options : List FlightOption
  recommended : FlightOption
  estimated_cost_usd : ℚ

structure HotelOption where
  name : String
  total_rate_usd : ℚ
  rate_per_night_usd : ℚ
  rating : ℚ
  reviews : ℤ
  location : String
  amenities : List String
  link : String
  value_score : ℚ

structure HotelOutput where
  options : List HotelOption
  recommended : HotelOption
  estimated_total_usd : ℚ

structure Attraction where
  name : String
  rating : ℚ
  reviews : ℤ
  address : String
  type : String
  description : String
  is_outdoor : Bool

structure HiddenGem where
  name : String
  source : String
  snippet : String
  mentions : ℤ

structure Restaurant where
  name : String
  rating : ℚ
  address : String
  type : String
  price_level : String
  reviews : ℤ

structure DiscoveryOutput where
  attractions : List Attraction
  hidden_gems : List HiddenGem
  restaurants : List Restaurant

structure MealPlan where
  breakfast : String
  lunch : String
  dinner : String
  dinner_restaurant : Option Restaurant

structure DayPlan where
  day_number : ℤ
  date : ℤ
  weather : Option DailyForecast
  morning_activity : String
  morning_attraction : Option Attraction
  afternoon_activity : String
  afternoon_attraction : Option Attraction
  hidden_gem : Option HiddenGem
  meals : MealPlan
  estimated_daily_spend_usd : ℚ

structure DateRange where
  start_date : ℤ
  end_date : ℤ
  num_days : ℤ

structure PlanRequest where
  destination : String
  start_date : ℤ
  end_date : ℤ
  budget_usd : ℚ
  origin : String
  travel_style : String
  preferences : List String
  dislikes : List String

structure SessionState where
  session_id : String
  request : PlanRequest
  weather : Option WeatherOutput
  transport : Option TransportOutput
  hotel : Option HotelOutput
  discovery : Option DiscoveryOutput
  budget : Option BudgetOutput
  itinerary : List DayPlan
  agents_run : List String
  replanned_agents : List String
  errors : List String
  llm_summary : Option String
  updated_at : Option ℤ

structure TravelPlanResponse where
  session_id : String
  destination : String
  dates : DateRange
  weather : WeatherOutput
  transport : TransportOutput
  hotel : HotelOutput
  discovery : DiscoveryOutput
  budget : BudgetOutput
  itinerary : List DayPlan
  agents_run : List String
  replanned_agents : List String
  errors : List String
  llm_summary : String

/-! ## Itinerary builder (backend/utils/itinerary_builder.py) -/

def OUTDOOR_KEYWORDS : List String :=
  ["park", "beach", "hiking", "outdoor", "garden", "trail", "waterfall"]

/-- MEAL_SUGGESTIONS: tier to (breakfast, lunch). -/
def MEAL_SUGGESTIONS : List (String × String × String) :=
  [("budget", "Street-side café or hostel breakfast", "Local street food stall"),
   ("mid", "Hotel breakfast buffet", "Casual local restaurant"),
   ("standard", "Hotel breakfast or neighborhood bakery", "Local bistro or café"),
   ("premium", "Hotel à la carte breakfast", "Upscale casual dining"),
   ("luxury", "Fine hotel breakfast experience", "Michelin-recommended lunch spot")]

/-- Scan the tier table in order; first tier with a city contained in the
destination wins, else standard. -/
def tierScan : List (String × List String) → String → String
  | [], _ => "standard"
  | (tier, cities) :: rest, d =>
    if cities.any (fun city => strIn city d) then tier else tierScan rest d

def _get_cost_tier (destination : String) : String :=
  let dest_lower := pyStrip (pyLower destination)
  tierScan
    [("budget", ["bangkok", "hanoi", "cairo", "delhi", "lisbon", "krakow"]),
     ("mid", ["barcelona", "prague", "budapest", "mexico city", "bali"]),
     ("standard", ["paris", "rome", "amsterdam", "tokyo", "sydney", "berlin"]),
     ("premium", ["london", "new york", "dubai", "singapore", "san francisco"]),
     ("luxury", ["monaco", "maldives", "bora bora", "st moritz", "zurich"])]
    dest_lower

def _is_outdoor (a : Attraction) : Bool :=
  if a.is_outdoor then true
  else
    let attr_type_lower := if a.type.isEmpty then "" else pyLower a.type
    let attr_name_lower := if a.name.isEmpty then "" else pyLower a.name
    let combined := attr_type_lower ++ " " ++ attr_name_lower
    OUTDOOR_KEYWORDS.any (fun kw => strIn kw combined)

/-- First unused indoor attraction in list order, if any. -/
def _find_indoor_replacement (attractions : List Attraction)
    (used : List String) : Option Attraction :=
  attractions.find? (fun a => !used.contains a.name && !_is_outdoor a)

def _weather_for_date (weather : WeatherOutput) (target_date : ℤ) :
    Option DailyForecast :=
  weather.daily_forecasts.find? (fun f => f.date == target_date)

def attractionDefault : Attraction :=
  { name := "", rating := 0, reviews := 0, address := "", type := "",
    description := "", is_outdoor := false }

def gemDefault : HiddenGem := { name := "", source := "", snippet := "", mentions := 1 }

def restaurantDefault : Restaurant :=
  { name := "", rating := 0, address := "", type := "", price_level := "",
    reviews := 0 }

/-- The cursor state threaded through the day loop of build_itinerary. -/
structure BuildState where
  used_attractions : List String
  attraction_idx : ℕ
  gem_idx : ℕ
  restaurant_idx : ℕ

/-- One morning or afternoon slot pick of build_itinerary: take the cursor
candidate; on a rainy day swap an outdoor candidate for the first unused
indoor attraction when one exists. Returns (slot, used, cursor). -/
def pick_attraction (attractions : List Attraction) (is_rainy : Bool)
    (used : List String) (idx : ℕ) : Option Attraction × List String × ℕ :=
  if h : idx < attractions.length then
    let candidate := attractions.get ⟨idx, h⟩
    if is_rainy && _is_outdoor candidate then
      match _find_indoor_replacement attractions used with
      | some replacement => (some replacement, replacement.name :: used, idx + 1)
      | none => (some candidate, candidate.name :: used, idx + 1)
    else (some candidate, candidate.name :: used, idx + 1)
  else (none, used, idx)

/-- list(discovery.attractions) if discovery else []. -/
def discAttractions (discovery : Option DiscoveryOutput) : List Attraction :=
  match discovery with
  | some d => d.attractions
  | none => []

/-- list(discovery.hidden_gems) if discovery else []. -/
def discGems (discovery : Option DiscoveryOutput) : List HiddenGem :=
  match discovery with
  | some d => d.hidden_gems
  | none => []

/-- list(discovery.restaurants) if discovery else []. -/
def discRestaurants (discovery : Option DiscoveryOutput) : List Restaurant :=
  match discovery with
  | some d => d.restaurants
  | none => []

/-- The per-synthesis inputs of the day loop. -/
structure ItinCtx where
  start_date : ℤ
  weather : WeatherOutput
  attractions : List Attraction
  hidden_gems : List HiddenGem
  restaurants : List Restaurant
  breakfast_default : String
  lunch_default : String
  daily_spend : ℚ

/-- The body of the day loop of build_itinerary. -/
def build_day (ctx : ItinCtx) (day_num : ℤ) (st : BuildState) :
    DayPlan × BuildState :=
  let current_date := ctx.start_date + (day_num - 1)
  let forecast := _weather_for_date ctx.weather current_date
  let is_rainy := forecast.any (fun f => decide (f.max_rain_probability > 0.6))
  let m := pick_attraction ctx.attractions is_rainy st.used_attractions
    st.attraction_idx
  let morning_attraction := m.1
  let a := pick_attraction ctx.attractions is_rainy m.2.1 m.2.2
  let afternoon_attraction := a.1
  let gemCond := (day_num % 2 == 0) &&
    decide (st.gem_idx < ctx.hidden_gems.length)
  let hidden_gem :=
    if gemCond then some (ctx.hidden_gems.getD st.gem_idx gemDefault) else none
  let gem_idx2 := if gemCond then st.gem_idx + 1 else st.gem_idx
  let dinner_restaurant :=
    if ctx.restaurants.isEmpty then none
    else some (ctx.restaurants.getD
      (st.restaurant_idx % ctx.restaurants.length) restaurantDefault)
  let restaurant_idx2 :=
    if ctx.restaurants.isEmpty then st.restaurant_idx
    else st.restaurant_idx + 1
  let morning_activity :=
    if hidden_gem.isSome && !morning_attraction.isSome then
      "Explore hidden gem: " ++ (hidden_gem.getD gemDefault).name
    else if morning_attraction.isSome then
      "Visit " ++ (morning_attraction.getD attractionDefault).name ++
        (if hidden_gem.isSome then
          " + discover hidden gem: " ++ (hidden_gem.getD gemDefault).name
        else "")
    else if hidden_gem.isSome then
      "Explore hidden gem: " ++ (hidden_gem.getD gemDefault).name
    else "Free morning — explore the neighborhood"
  let afternoon_activity :=
    if afternoon_attraction.isSome then
      "Visit " ++ (afternoon_attraction.getD attractionDefault).name
    else "Free afternoon — relax or explore at your own pace"
  let dinner_name :=
    match dinner_restaurant with
    | some r => r.name
    | none => "Local restaurant"
  let meals : MealPlan :=
    { breakfast := ctx.breakfast_default, lunch := ctx.lunch_default,
      dinner := "Dinner at " ++ dinner_name,
      dinner_restaurant := dinner_restaurant }
  ({ day_number := day_num, date := current_date, weather := forecast,
     morning_activity := morning_activity,
     morning_attraction := morning_attraction,
     afternoon_activity := afternoon_activity,
     afternoon_attraction := afternoon_attraction,
     hidden_gem := hidden_gem, meals := meals,
     estimated_daily_spend_usd := round2 ctx.daily_spend },
   { used_attractions := a.2.1, attraction_idx := a.2.2,
     gem_idx := gem_idx2, restaurant_idx := restaurant_idx2 })

/-- The for day_num in range(1, num_days + 1) loop. -/
def build_days (ctx : ItinCtx) : ℤ → ℕ → BuildState → List DayPlan
  | _, 0, _ => []
  | day_num, r + 1, st =>
    let step := build_day ctx day_num st
    step.1 :: build_days ctx (day_num + 1) r step.2

/-- build_itinerary from itinerary_builder.py.  discovery and budget keep
the truthiness guards of the source (if discovery / if budget), hence are
Option here; the hotel argument is accepted and unused exactly as in the
source. -/
def build_itinerary (destination : String) (start_date end_date : ℤ)
    (weather : WeatherOutput) (discovery : Option DiscoveryOutput)
    (hotel : HotelOutput) (budget : Option BudgetOutput) : List DayPlan :=
  let num_days0 := end_date - start_date
  let num_days := if num_days0 ≤ 0 then 1 else num_days0
  let tier := _get_cost_tier destination
  let meal_defaults := (MEAL_SUGGESTIONS.lookup tier).getD
    ("Hotel breakfast or neighborhood bakery", "Local bistro or café")
  let daily_spend : ℚ :=
    match budget with
    | some b => (b.breakdown.food_usd + b.breakdown.activities_usd) /
        ((max num_days 1 : ℤ) : ℚ)
    | none => 0.0
  let attractions := discAttractions discovery
  let hidden_gems := discGems discovery
  let restaurants := discRestaurants discovery
  build_days
    { start_date := start_date, weather := weather, attractions := attractions,
      hidden_gems := hidden_gems, restaurants := restaurants,
      breakfast_default := meal_defaults.1, lunch_default := meal_defaults.2,
      daily_spend := daily_spend }
    1 num_days.toNat
    { used_attractions := [], attraction_idx := 0, gem_idx := 0,
      restaurant_idx := 0 }

/-- All attractions placed into morning or afternoon slots, in itinerary
order. -/
def slotAttractions (plans : List DayPlan) : List Attraction :=
  plans.flatMap
    (fun p => p.morning_attraction.toList ++ p.afternoon_attraction.toList)

/-! ## Result extraction (_extract_result_text of orchestrator.py) -/

/-- Result of _extract_result_text: either a returned value (Python
str | None, but unchecked at runtime, hence Option PyVal) or an uncaught
KeyError from block["text"]. -/
inductive ExtractRes where
  | ok : Option PyVal → ExtractRes
  | keyError : ExtractRes

/-- isinstance(block, dict) and block.get("type") == "text". -/
def isTextBlock (kvs : PyDict) : Bool :=
  match dictGet kvs "type" with
  | some (PyVal.pstr t) => t == "text"
  | _ => false

/-- The for block in content loop: some (some v) = first text block found,
text key present with value v; some none = first text block lacks the text
key (KeyError); none = no text block. -/
def firstTextBlock : PyList → Option (Option PyVal)
  | PyList.nil => none
  | PyList.cons (PyVal.pdict kvs) rest =>
    if isTextBlock kvs then some (dictGet kvs "text") else firstTextBlock rest
  | PyList.cons _ rest => firstTextBlock rest

/-- _extract_result_text from orchestrator.py, on the PyVal model of the
SDK tool_response. -/
def _extract_result_text : Option PyVal → ExtractRes
  | Option.none => ExtractRes.ok none
  | some v =>
    match v with
    | PyVal.pdict kvs =>
      let content := (dictGet kvs "content").getD (PyVal.plist PyList.nil)
      match content with
      | PyVal.plist blocks =>
        match firstTextBlock blocks with
        | some (some t) => ExtractRes.ok (some t)
        | some Option.none => ExtractRes.keyError
        | Option.none =>
          match dumpsJson (PyVal.pdict kvs) with
          | some s => ExtractRes.ok (some (PyVal.pstr s))
          | Option.none => ExtractRes.ok Option.none
      | _ =>
        match dumpsJson (PyVal.pdict kvs) with
        | some s => ExtractRes.ok (some (PyVal.pstr s))
        | Option.none => ExtractRes.ok Option.none
    | PyVal.pstr s =>
      match jsonLoads s with
      | some (PyVal.pdict kvs) =>
        match dictGet kvs "content" with
        | some (PyVal.plist blocks) =>
          match firstTextBlock blocks with
          | some (some t) => ExtractRes.ok (some t)
          | some Option.none => ExtractRes.keyError
          | Option.none => ExtractRes.ok (some (PyVal.pstr s))
        | _ => ExtractRes.ok (some (PyVal.pstr s))
      | _ => ExtractRes.ok (some (PyVal.pstr s))
    | PyVal.plist blocks =>
      match firstTextBlock blocks with
      | some (some t) => ExtractRes.ok (some t)
      | some Option.none => ExtractRes.keyError
      | Option.none =>
        ExtractRes.ok (some (PyVal.pstr (pyRepr (PyVal.plist blocks))))
    | other => ExtractRes.ok (some (PyVal.pstr (pyRepr other)))

/-! ## Call tracker (backend/agents/agent_tracker.py) -/

/-- A single tool call record.  result_json is annotated str in the source;
the post hook stores whatever _extract_result_text returned, so the model
keeps it as a PyVal. -/
structure ToolCallRecord where
  timestamp : String
  tool_name : String
  tool_input : PyDict
  result_json : Option PyVal
  error : Option String

structure AgentTracker where
  tool_call_records : List ToolCallRecord
  agents_completed : List String
  errors : List String

def trackerInit : AgentTracker :=
  { tool_call_records := [], agents_completed := [], errors := [] }

def tracker_reset (_tr : AgentTracker) : AgentTracker := trackerInit

def record_tool_call (tr : AgentTracker) (timestamp tool_name : String)
    (tool_input : PyDict) : AgentTracker :=
  { tr with tool_call_records := tr.tool_call_records ++
      [{ timestamp := timestamp, tool_name := tool_name,
         tool_input := tool_input, result_json := none, error := none }] }

/-- agents_completed.add(agent_type); the Python set is modelled as a
duplicate-free list. -/
def mark_agent_done (tr : AgentTracker) (agent_type : String) : AgentTracker :=
  { tr with agents_completed :=
      if tr.agents_completed.contains agent_type then tr.agents_completed
      else tr.agents_completed ++ [agent_type] }

def record_error (tr : AgentTracker) (error_msg : String) : AgentTracker :=
  { tr with errors := tr.errors ++ [error_msg] }

/-! ## Orchestrator hook and replan (backend/agents/orchestrator.py) -/

def _TOOL_TO_AGENT : List (String × String) :=
  [("mcp__weather__get_weather_forecast", "weather"),
   ("mcp__transport__search_flights", "transport"),
   ("mcp__hotel__search_hotels", "hotel"),
   ("mcp__discovery__discover_places", "discovery"),
   ("mcp__budget__optimize_budget", "budget")]

/-- The for rec in reversed(tracker.tool_call_records) scan of
post_tool_use: index (from the front) of the last record whose tool name
matches and whose result is still unset. -/
def find_last_unset_idx (records : List ToolCallRecord) (tool_name : String) :
    Option ℕ :=
  match records with
  | [] => none
  | r :: rest =>
    match find_last_unset_idx rest tool_name with
    | some i => some (i + 1)
    | none =>
      if r.tool_name == tool_name && r.result_json.isNone then some 0 else none

/-- matched_record.result_json = result_text: the in-place mutation of the
matched record, as a positional update. -/
def update_record_at : List ToolCallRecord → ℕ → PyVal → List ToolCallRecord
  | [], _, _ => []
  | r :: rest, 0, v => { r with result_json := some v } :: rest
  | r :: rest, i + 1, v => r :: update_record_at rest i v

/-- The PostToolUse hook body of orchestrator.py restricted to its effect on
the tracker (logging dropped).  Except.error models the uncaught KeyError
that _extract_result_text can raise inside the hook. -/
def post_tool_use (tr : AgentTracker) (tool_name : String)
    (tool_response : Option PyVal) : Except Unit AgentTracker :=
  match _TOOL_TO_AGENT.lookup tool_name with
  | none => Except.ok tr
  | some agent_domain =>
    let afterMatch : Except Unit AgentTracker :=
      match find_last_unset_idx tr.tool_call_records tool_name with
      | some i =>
        match _extract_result_text tool_response with
        | ExtractRes.keyError => Except.error ()
        | ExtractRes.ok result_text =>
          match result_text with
          | some v =>
            if pyTruthy v then
              let updated := update_record_at tr.tool_call_records i v
              Except.ok { tr with tool_call_records := updated }
            else Except.ok tr
          | none => Except.ok tr
      | none => Except.ok tr
    match afterMatch with
    | Except.error e => Except.error e
    | Except.ok tr2 => Except.ok (mark_agent_done tr2 agent_domain)

/-! ## Session store and replan -/

/-- The in-memory session store, keyed by session id. -/
def get_session (store : List (String × SessionState)) (session_id : String) :
    Option SessionState :=
  store.lookup session_id

def _default_weather : WeatherOutput :=
  { daily_forecasts := [], outdoor_viable := true, summary := "Pending" }

def _default_transport : TransportOutput :=
  { options := [],
    recommended :=
      { price_usd := 0, airlines := [], total_duration_minutes := 0,
        stops := 0, legs := [], tag := "" },
    estimated_cost_usd := 0 }

def _default_hotel : HotelOutput :=
  { options := [],
    recommended :=
      { name := "Pending", total_rate_usd := 0, rate_per_night_usd := 0,
        rating := 0, reviews := 0, location := "", amenities := [],
        link := "", value_score := 0 },
    estimated_total_usd := 0 }

def _default_discovery : DiscoveryOutput :=
  { attractions := [], hidden_gems := [], restaurants := [] }

def _default_budget (total : ℚ) : BudgetOutput :=
  { breakdown :=
      { transport_usd := 0, hotel_usd := 0, food_usd := 0,
        activities_usd := 0 },
    estimated_total_usd := 0, total_budget_usd := total,
    remaining_budget_usd := total, status := "balanced", suggestions := [] }

/-- _session_to_response from orchestrator.py: assemble a response from the
stored session, with per-domain defaults for absent outputs.  The source's
session.itinerary or [] equals session.itinerary on lists. -/
def _session_to_response (session : SessionState) (replanned : List String) :
    TravelPlanResponse :=
  let num_days := max (session.request.end_date - session.request.start_date) 1
  { session_id := session.session_id,
    destination := session.request.destination,
    dates :=
      { start_date := session.request.start_date,
        end_date := session.request.end_date, num_days := num_days },
    weather := session.weather.getD _default_weather,
    transport := session.transport.getD _default_transport,
    hotel := session.hotel.getD _default_hotel,
    discovery := session.discovery.getD _default_discovery,
    budget := session.budget.getD (_default_budget session.request.budget_usd),
    itinerary := session.itinerary,
    agents_run := session.agents_run,
    replanned_agents := replanned,
    errors := session.errors,
    llm_summary := "" }

/-- run_replan from orchestrator.py.  The branch taken when the affected
set is nonempty drives the external delegation caller (ClaudeSDKClient,
out of the embedded core, lines 637-674 of the source) and is therefore a
parameter: the theorems about the empty branch hold for every such
continuation. -/
def run_replan (store : List (String × SessionState)) (session_id : String)
    (updated_preferences : List (String × PyVal))
    (replanBranch : SessionState → List (String × PyVal) → List String →
      List (String × SessionState) × TravelPlanResponse) :
    Except String (List (String × SessionState) × TravelPlanResponse) :=
  match get_session store session_id with
  | none => Except.error ("Session not found: " ++ session_id)
  | some session =>
    let changed_fields := updated_preferences.map Prod.fst
    let affected := get_affected_agents changed_fields
    if affected.isEmpty then
      Except.ok (store, _session_to_response session [])
    else Except.ok (replanBranch session updated_preferences affected)

/-! ## Auxiliary definitions used by the theorems below -/

/-- Fallback DayPlan used only for positional access in statements. -/
def dayPlanDefault : DayPlan :=
  { day_number := 0, date := 0, weather := none, morning_activity := "",
    morning_attraction := none, afternoon_activity := "",
    afternoon_attraction := none, hidden_gem := none,
    meals := { breakfast := "", lunch := "", dinner := "",
               dinner_restaurant := none },
    estimated_daily_spend_usd := 0 }

/-- Fallback ToolCallRecord used only for positional access in statements. -/
def recordDefault : ToolCallRecord :=
  { timestamp := "", tool_name := "", tool_input := PyDict.nil,
    result_json := none, error := none }

/-- The predicate of the reverse scan in post_tool_use: same tool name and
result still unset. -/
def isUnsetMatch (tool_name : String) (r : ToolCallRecord) : Bool :=
  r.tool_name == tool_name && r.result_json.isNone

/-- The one-record mutation performed by post_tool_use on a match. -/
def withResult (r : ToolCallRecord) (v : PyVal) : ToolCallRecord :=
  { r with result_json := some v }

/-! Concrete fixtures for counterexamples and witnesses. -/

def parkAttr : Attraction :=
  { name := "City Park", rating := 0, reviews := 0, address := "",
    type := "park", description := "", is_outdoor := true }

def museumAttr : Attraction :=
  { name := "City Museum", rating := 0, reviews := 0, address := "",
    type := "museum", description := "", is_outdoor := false }

def rainForecastDay0 : DailyForecast :=
  { date := 0, avg_temp_c := 20, dominant_condition := "Rain",
    max_rain_probability := 0.7, summary := "wet" }

def rainyWeatherDay0 : WeatherOutput :=
  { daily_forecasts := [rainForecastDay0], outdoor_viable := false,
    summary := "rain" }

def calmForecastDay0 : DailyForecast :=
  { date := 0, avg_temp_c := 22, dominant_condition := "Clear",
    max_rain_probability := 0.1, summary := "dry" }

def calmWeatherDay0 : WeatherOutput :=
  { daily_forecasts := [calmForecastDay0], outdoor_viable := true,
    summary := "clear" }

def parkMuseumDiscovery : DiscoveryOutput :=
  { attractions := [parkAttr, museumAttr], hidden_gems := [], restaurants := [] }

def weatherRecordUnset1 : ToolCallRecord :=
  { timestamp := "t1", tool_name := "mcp__weather__get_weather_forecast",
    tool_input := PyDict.nil, result_json := none, error := none }

def weatherRecordUnset2 : ToolCallRecord :=
  { timestamp := "t2", tool_name := "mcp__weather__get_weather_forecast",
    tool_input := PyDict.nil, result_json := none, error := none }

def hotelRecordUnset : ToolCallRecord :=
  { timestamp := "t3", tool_name := "mcp__hotel__search_hotels",
    tool_input := PyDict.nil, result_json := none, error := none }

def trackerFixture : AgentTracker :=
  { tool_call_records := [weatherRecordUnset1, weatherRecordUnset2,
      hotelRecordUnset],
    agents_completed := [], errors := [] }

def planRequestFixture : PlanRequest :=
  { destination := "paris", start_date := 0, end_date := 2,
    budget_usd := 1000, origin := "auto", travel_style := "standard",
    preferences := [], dislikes := [] }

def sessionFixture : SessionState :=
  { session_id := "s1", request := planRequestFixture, weather := none,
    transport := none, hotel := none, discovery := none, budget := none,
    itinerary := [], agents_run := ["weather"], replanned_agents := [],
    errors := [], llm_summary := none, updated_at := none }

def storeFixture : List (String × SessionState) := [("s1", sessionFixture)]

/-- A stand-in for the external replan branch in witnesses: it never runs
for an empty affected set, so its value is irrelevant. -/
def replanBranchFixture (session : SessionState)
    (_updated : List (String × PyVal)) (_affected : List String) :
    List (String × SessionState) × TravelPlanResponse :=
  ([], _session_to_response session [])

/-! # Theorems

Helper lemmas first, then one theorem per claim (with witness or
counterexample where required). -/

/-- roundHalfEven never goes below the floor. -/
theorem roundHalfEven_ge_floor (x : ℚ) : Int.floor x ≤ roundHalfEven x := by
  simp only [roundHalfEven]
  split_ifs <;> omega

/-- round(x, 2) respects integer lower bounds: monotone against any integer
bound below its argument. -/
theorem le_round2_of_le_int (n : ℤ) (x : ℚ) (h : (n : ℚ) ≤ x) :
    (n : ℚ) ≤ round2 x := by
  have h1 : (100 * n : ℤ) ≤ Int.floor (x * 100) := by
    rw [Int.le_floor]
    push_cast
    linarith
  have h2 : (100 * n : ℤ) ≤ roundHalfEven (x * 100) :=
    le_trans h1 (roundHalfEven_ge_floor (x * 100))
  have h3 : ((100 * n : ℤ) : ℚ) ≤ ((roundHalfEven (x * 100) : ℤ) : ℚ) :=
    Int.cast_le.mpr h2
  unfold round2
  rw [le_div_iff₀ (by norm_num : (0:ℚ) < 100)]
  push_cast at h3 ⊢
  linarith

/-- The day plan emitted for day d carries day number d. -/
theorem build_day_day_number (ctx : ItinCtx) (d : ℤ) (st : BuildState) :
    (build_day ctx d st).1.day_number = d := rfl

/-- The day plan emitted for day d carries date start + (d - 1). -/
theorem build_day_date (ctx : ItinCtx) (d : ℤ) (st : BuildState) :
    (build_day ctx d st).1.date = ctx.start_date + (d - 1) := rfl

/-- The day loop emits exactly one plan per remaining day. -/
theorem build_days_length (ctx : ItinCtx) :
    ∀ (r : ℕ) (day_num : ℤ) (st : BuildState),
      (build_days ctx day_num r st).length = r := by
  intro r
  induction r with
  | zero => intro day_num st; rfl
  | succ n ih =>
    intro day_num st
    simp only [build_days, List.length_cons, ih]

/-- Day numbers and dates of the day loop are contiguous from day_num. -/
theorem build_days_getD (ctx : ItinCtx) :
    ∀ (r i : ℕ) (day_num : ℤ) (st : BuildState), i < r →
      ((build_days ctx day_num r st).getD i dayPlanDefault).day_number =
        day_num + i ∧
      ((build_days ctx day_num r st).getD i dayPlanDefault).date =
        ctx.start_date + (day_num + i - 1) := by
  intro r
  induction r with
  | zero => intro i day_num st h; omega
  | succ n ih =>
    intro i day_num st h
    match i with
    | 0 =>
      simp only [build_days, List.getD_cons_zero]
      exact ⟨by rw [build_day_day_number]; norm_num,
        by rw [build_day_date]; norm_num⟩
    | j + 1 =>
      simp only [build_days, List.getD_cons_succ]
      have := ih j (day_num + 1) (build_day ctx day_num st).2 (by omega)
      refine ⟨?_, ?_⟩
      · rw [this.1]; push_cast; ring
      · rw [this.2]; push_cast; ring_nf

/-- On a day that is not rainy the slot pick is the plain cursor element. -/
theorem pick_attraction_fst_not_rainy (A : List Attraction) (u : List String)
    (i : ℕ) : (pick_attraction A false u i).1 = A[i]? := by
  unfold pick_attraction
  split
  · next h =>
    simp only [Bool.false_and, if_neg (by simp : ¬ (false = true))]
    rw [List.getElem?_eq_getElem h]
    rfl
  · next h => rw [List.getElem?_eq_none (by omega)]

/-- On a day that is not rainy the cursor advances by one while in range. -/
theorem pick_attraction_idx_not_rainy (A : List Attraction) (u : List String)
    (i : ℕ) : (pick_attraction A false u i).2.2 =
      if i < A.length then i + 1 else i := by
  unfold pick_attraction
  split
  · next h => simp [h]
  · next h => simp [h]

/-- When no forecast day exceeds the 0.6 rain threshold, the day loop's
rainy flag is down for every date. -/
theorem build_day_is_rainy_false (ctx : ItinCtx) (d : ℤ)
    (hw : ∀ f ∈ ctx.weather.daily_forecasts, f.max_rain_probability ≤ 0.6) :
    (_weather_for_date ctx.weather (ctx.start_date + (d - 1))).any
      (fun f => decide (f.max_rain_probability > 0.6)) = false := by
  cases hfind : _weather_for_date ctx.weather (ctx.start_date + (d - 1)) with
  | none => rfl
  | some f =>
    have hmem : f ∈ ctx.weather.daily_forecasts :=
      List.mem_of_find?_eq_some hfind
    simp only [Option.any]
    rw [decide_eq_false_iff_not]
    exact not_lt.mpr (hw f hmem)

/-- A no-rain day consumes the next (up to) two cursor attractions and
advances the cursor accordingly. -/
theorem build_day_norain (ctx : ItinCtx) (d : ℤ) (st : BuildState)
    (hw : ∀ f ∈ ctx.weather.daily_forecasts, f.max_rain_probability ≤ 0.6) :
    ((build_day ctx d st).1.morning_attraction.toList ++
      (build_day ctx d st).1.afternoon_attraction.toList =
      (ctx.attractions.drop st.attraction_idx).take 2) ∧
    ((st.attraction_idx ≤ ctx.attractions.length →
      (build_day ctx d st).2.attraction_idx =
        min (st.attraction_idx + 2) ctx.attractions.length)) := by
  have hrf := build_day_is_rainy_false ctx d hw
  have hm : (build_day ctx d st).1.morning_attraction =
      (pick_attraction ctx.attractions
        ((_weather_for_date ctx.weather (ctx.start_date + (d - 1))).any
          (fun f => decide (f.max_rain_probability > 0.6)))
        st.used_attractions st.attraction_idx).1 := rfl
  have ha : (build_day ctx d st).1.afternoon_attraction =
      (pick_attraction ctx.attractions
        ((_weather_for_date ctx.weather (ctx.start_date + (d - 1))).any
          (fun f => decide (f.max_rain_probability > 0.6)))
        (pick_attraction ctx.attractions
          ((_weather_for_date ctx.weather (ctx.start_date + (d - 1))).any
            (fun f => decide (f.max_rain_probability > 0.6)))
          st.used_attractions st.attraction_idx).2.1
        (pick_attraction ctx.attractions
          ((_weather_for_date ctx.weather (ctx.start_date + (d - 1))).any
            (fun f => decide (f.max_rain_probability > 0.6)))
          st.used_attractions st.attraction_idx).2.2).1 := rfl
  have hst : (build_day ctx d st).2.attraction_idx =
      (pick_attraction ctx.attractions
        ((_weather_for_date ctx.weather (ctx.start_date + (d - 1))).any
          (fun f => decide (f.max_rain_probability > 0.6)))
        (pick_attraction ctx.attractions
          ((_weather_for_date ctx.weather (ctx.start_date + (d - 1))).any
            (fun f => decide (f.max_rain_probability > 0.6)))
          st.used_attractions st.attraction_idx).2.1
        (pick_attraction ctx.attractions
          ((_weather_for_date ctx.weather (ctx.start_date + (d - 1))).any
            (fun f => decide (f.max_rain_probability > 0.6)))
          st.used_attractions st.attraction_idx).2.2).2.2 := rfl
  rw [hrf] at hm ha hst
  rw [hm, ha, hst]
  simp only [pick_attraction_fst_not_rainy, pick_attraction_idx_not_rainy]
  set A := ctx.attractions with hA
  set i := st.attraction_idx with hi
  constructor
  · by_cases h1 : i < A.length
    · by_cases h2 : i + 1 < A.length
      · rw [if_pos h1]
        rw [List.getElem?_eq_getElem h1, List.getElem?_eq_getElem h2]
        rw [List.drop_eq_getElem_cons h1, List.drop_eq_getElem_cons h2]
        rfl
      · have hd1 : List.drop (i + 1) A = [] :=
          List.drop_eq_nil_of_le (by omega)
        rw [if_pos h1]
        rw [List.getElem?_eq_getElem h1, List.getElem?_eq_none (by omega)]
        rw [List.drop_eq_getElem_cons h1, hd1]
        rfl
    · have hd0 : List.drop i A = [] := List.drop_eq_nil_of_le (by omega)
      rw [if_neg h1]
      rw [List.getElem?_eq_none (by omega)]
      rw [hd0]
      rfl
  · intro hle
    by_cases h1 : i < A.length <;> by_cases h2 : i + 1 < A.length <;>
      simp [h1, h2] <;> omega

theorem slotAttractions_cons (p : DayPlan) (rest : List DayPlan) :
    slotAttractions (p :: rest) =
      (p.morning_attraction.toList ++ p.afternoon_attraction.toList) ++
        slotAttractions rest := by
  simp [slotAttractions]

/-- Without rainy days the whole loop consumes a prefix of the attraction
list, two per day. -/
theorem build_days_norain_slots (ctx : ItinCtx)
    (hw : ∀ f ∈ ctx.weather.daily_forecasts, f.max_rain_probability ≤ 0.6) :
    ∀ (r : ℕ) (day_num : ℤ) (st : BuildState),
      st.attraction_idx ≤ ctx.attractions.length →
      slotAttractions (build_days ctx day_num r st) =
        (ctx.attractions.drop st.attraction_idx).take (2 * r) := by
  intro r
  induction r with
  | zero => intro day_num st hle; simp [build_days, slotAttractions]
  | succ n ih =>
    intro day_num st hle
    have hday := build_day_norain ctx day_num st hw
    have hidx := hday.2 hle
    have hle2 : (build_day ctx day_num st).2.attraction_idx ≤
        ctx.attractions.length := by rw [hidx]; omega
    simp only [build_days]
    rw [slotAttractions_cons, hday.1, ih (day_num + 1) _ hle2, hidx]
    have hdropmin : ctx.attractions.drop
        (min (st.attraction_idx + 2) ctx.attractions.length) =
        ctx.attractions.drop (st.attraction_idx + 2) := by
      rcases le_total (st.attraction_idx + 2) ctx.attractions.length with h | h
      · rw [min_eq_left h]
      · rw [min_eq_right h]
        rw [List.drop_eq_nil_of_le le_rfl, List.drop_eq_nil_of_le h]
    rw [hdropmin]
    have h2 : 2 * (n + 1) = 2 + 2 * n := by ring
    rw [h2, List.take_add]
    congr 1
    rw [List.drop_drop]

/-- On the concrete rainy-day fixture, the rainy flag of day 1 is up. -/
theorem rainy_any_true :
    (_weather_for_date rainyWeatherDay0 (0 + (1 - 1))).any
      (fun f => decide (f.max_rain_probability > 0.6)) = true := by
  have hfind : _weather_for_date rainyWeatherDay0 (0 + (1 - 1)) =
      some rainForecastDay0 := rfl
  rw [hfind]
  simp only [Option.any]
  rw [decide_eq_true_eq]
  show rainForecastDay0.max_rain_probability > 0.6
  rw [show rainForecastDay0.max_rain_probability = 0.7 from rfl]
  norm_num

/-- When the extractor returns None on a present input, that input is a
mapping with no text part whose serialization fails. -/
theorem extract_ok_none_cases (inp : Option PyVal)
    (h : _extract_result_text inp = ExtractRes.ok Option.none) :
    inp = Option.none ∨ ∃ kvs : PyDict, inp = some (PyVal.pdict kvs) ∧
      dumpsJson (PyVal.pdict kvs) = Option.none := by
  cases inp with
  | none => exact Or.inl rfl
  | some v =>
    cases v with
    | pdict kvs =>
      refine Or.inr ⟨kvs, rfl, ?_⟩
      simp only [_extract_result_text] at h
      cases hd : dumpsJson (PyVal.pdict kvs) with
      | none => rfl
      | some s =>
        exfalso
        rw [hd] at h
        repeat split at h
        all_goals simp_all
    | pnone => simp [_extract_result_text] at h
    | pbool b => cases b <;> simp [_extract_result_text] at h
    | pnum q => simp [_extract_result_text] at h
    | pother r => simp [_extract_result_text] at h
    | pstr s =>
      exfalso
      simp only [_extract_result_text] at h
      repeat split at h
      all_goals simp_all
    | plist xs =>
      exfalso
      simp only [_extract_result_text] at h
      repeat split at h
      all_goals simp_all

/-- A vanished find in the reverse scan means no record matches. -/
theorem find_last_unset_none (records : List ToolCallRecord) (tool_name : String) :
    find_last_unset_idx records tool_name = none →
    ∀ j, j < records.length →
      isUnsetMatch tool_name (records.getD j recordDefault) = false := by
  induction records with
  | nil => intro _ j hj; simp at hj
  | cons r rest ih =>
    intro h j hj
    simp only [find_last_unset_idx] at h
    cases hfind : find_last_unset_idx rest tool_name with
    | some i => rw [hfind] at h; simp at h
    | none =>
      rw [hfind] at h
      have hr : isUnsetMatch tool_name r = false := by
        by_contra hcon
        rw [isUnsetMatch] at hcon
        simp only [Bool.not_eq_false] at hcon
        rw [hcon] at h
        simp at h
      match j with
      | 0 => simpa using hr
      | k + 1 =>
        rw [List.getD_cons_succ]
        exact ih hfind k (by simpa using hj)

/-- The index found by the reverse scan is the greatest matching index. -/
theorem find_last_unset_some (records : List ToolCallRecord) (tool_name : String) :
    ∀ i, find_last_unset_idx records tool_name = some i →
      i < records.length ∧
      isUnsetMatch tool_name (records.getD i recordDefault) = true ∧
      ∀ j, i < j → j < records.length →
        isUnsetMatch tool_name (records.getD j recordDefault) = false := by
  induction records with
  | nil => intro i h; simp [find_last_unset_idx] at h
  | cons r rest ih =>
    intro i h
    simp only [find_last_unset_idx] at h
    cases hfind : find_last_unset_idx rest tool_name with
    | some i2 =>
      rw [hfind] at h
      simp only [Option.some.injEq] at h
      subst h
      obtain ⟨h1, h2, h3⟩ := ih i2 hfind
      refine ⟨by simpa using Nat.succ_lt_succ h1, by simpa using h2, ?_⟩
      intro j hj1 hj2
      match j with
      | k + 1 =>
        rw [List.getD_cons_succ]
        exact h3 k (by omega) (by simpa using hj2)
    | none =>
      rw [hfind] at h
      replace h : (if r.tool_name == tool_name && r.result_json.isNone then
          some 0 else none) = some i := h
      split at h
      · next hmatch =>
        simp only [Option.some.injEq] at h
        subst h
        refine ⟨by simp, ?_, ?_⟩
        · show isUnsetMatch tool_name r = true
          rw [isUnsetMatch]
          exact hmatch
        · intro j hj1 hj2
          match j with
          | k + 1 =>
            rw [List.getD_cons_succ]
            exact find_last_unset_none rest tool_name hfind k (by simpa using hj2)
      · simp at h

theorem update_record_at_length (records : List ToolCallRecord) (i : ℕ)
    (v : PyVal) : (update_record_at records i v).length = records.length := by
  induction records generalizing i with
  | nil => rfl
  | cons r rest ih =>
    match i with
    | 0 => rfl
    | k + 1 => simp only [update_record_at, List.length_cons, ih]

theorem update_record_at_getD_eq (records : List ToolCallRecord) (i : ℕ)
    (v : PyVal) (h : i < records.length) :
    (update_record_at records i v).getD i recordDefault =
      withResult (records.getD i recordDefault) v := by
  induction records generalizing i with
  | nil => simp at h
  | cons r rest ih =>
    match i with
    | 0 => rfl
    | k + 1 =>
      simp only [update_record_at, List.getD_cons_succ]
      exact ih k (by simpa using h)

theorem update_record_at_getD_ne (records : List ToolCallRecord) (i j : ℕ)
    (v : PyVal) (h : j ≠ i) :
    (update_record_at records i v).getD j recordDefault =
      records.getD j recordDefault := by
  induction records generalizing i j with
  | nil => cases i <;> rfl
  | cons r rest ih =>
    match i, j with
    | 0, 0 => omega
    | 0, k + 1 => rfl
    | m + 1, 0 => rfl
    | m + 1, k + 1 =>
      simp only [update_record_at, List.getD_cons_succ]
      exact ih m k (by omega)

/-- Claim C1: for every budget-optimization input whose normalized travel
style is not luxury, the returned status is over iff the estimated total
exceeds 1.05 times the effective budget, under iff it is not over and the
estimated total is below 0.80 times the effective budget, and balanced
otherwise; for the luxury style the status is balanced on all inputs. -/
theorem budget_status_over_under_balanced (transport_cost hotel_cost : ℚ)
    (destination : String) (num_days : ℤ) (total_budget : ℚ)
    (travel_style : String) :
    (styleOf travel_style = "luxury" →
      (optimize_budget transport_cost hotel_cost destination num_days
        total_budget travel_style).status = "balanced") ∧
    (styleOf travel_style ≠ "luxury" →
      (((optimize_budget transport_cost hotel_cost destination num_days
          total_budget travel_style).status = "over" ↔
        estimated_total transport_cost hotel_cost num_days total_budget
          travel_style >
        effective_budget total_budget travel_style * 1.05) ∧
       ((optimize_budget transport_cost hotel_cost destination num_days
          total_budget travel_style).status = "under" ↔
        (¬ estimated_total transport_cost hotel_cost num_days total_budget
            travel_style >
          effective_budget total_budget travel_style * 1.05 ∧
         estimated_total transport_cost hotel_cost num_days total_budget
            travel_style <
          effective_budget total_budget travel_style * 0.80)) ∧
       ((optimize_budget transport_cost hotel_cost destination num_days
          total_budget travel_style).status = "balanced" ↔
        (¬ estimated_total transport_cost hotel_cost num_days total_budget
            travel_style >
          effective_budget total_budget travel_style * 1.05 ∧
         ¬ estimated_total transport_cost hotel_cost num_days total_budget
            travel_style <
          effective_budget total_budget travel_style * 0.80)))) := by
  have hs : (optimize_budget transport_cost hotel_cost destination num_days
      total_budget travel_style).status =
      budget_status transport_cost hotel_cost num_days total_budget
        travel_style := rfl
  rw [hs]
  unfold budget_status
  split_ifs with h1 h2 h3 <;>
    refine ⟨fun hl => ?_, fun hnl => ⟨?_, ?_, ?_⟩⟩ <;>
    simp_all

/-- Claim C2: for every budget-optimization input, including zero or
negative day counts which are coerced to one day, the returned food and
activities amounts sum to at least (15 + 5) times the coerced day count,
even when the discretionary pool is zero. -/
theorem food_activities_floor_invariant (transport_cost hotel_cost : ℚ)
    (destination : String) (num_days : ℤ) (total_budget : ℚ)
    (travel_style : String) :
    (optimize_budget transport_cost hotel_cost destination num_days
        total_budget travel_style).breakdown.food_usd +
      (optimize_budget transport_cost hotel_cost destination num_days
        total_budget travel_style).breakdown.activities_usd ≥
      (MIN_FOOD_PER_DAY + MIN_ACTIVITIES_PER_DAY) *
        ((coercedDays num_days : ℤ) : ℚ) := by
  have hf : (optimize_budget transport_cost hotel_cost destination num_days
      total_budget travel_style).breakdown.food_usd =
      round2 (food_cost transport_cost hotel_cost num_days total_budget
        travel_style) := rfl
  have ha : (optimize_budget transport_cost hotel_cost destination num_days
      total_budget travel_style).breakdown.activities_usd =
      round2 (activities_cost transport_cost hotel_cost num_days total_budget
        travel_style) := rfl
  have h1 : ((15 * coercedDays num_days : ℤ) : ℚ) ≤
      food_cost transport_cost hotel_cost num_days total_budget travel_style := by
    unfold food_cost MIN_FOOD_PER_DAY
    push_cast
    exact le_max_of_le_right (by norm_num)
  have h2 : ((5 * coercedDays num_days : ℤ) : ℚ) ≤
      activities_cost transport_cost hotel_cost num_days total_budget
        travel_style := by
    unfold activities_cost MIN_ACTIVITIES_PER_DAY
    push_cast
    exact le_max_of_le_right (by norm_num)
  have g1 := le_round2_of_le_int _ _ h1
  have g2 := le_round2_of_le_int _ _ h2
  rw [hf, ha]
  unfold MIN_FOOD_PER_DAY MIN_ACTIVITIES_PER_DAY
  push_cast at g1 g2 ⊢
  norm_num
  linarith

/-- Claim C3 (amended): when the rainy-weather indoor substitution cannot
trigger (no forecast day classifies as rainy) and attraction names are
distinct, each attraction is consumed at most once across the whole
itinerary.  As stated for all inputs the claim is false: see the
counterexample, where an indoor attraction substituted on a rainy day is
consumed a second time by the advancing cursor. -/
theorem attractions_consumed_once_without_substitution (destination : String)
    (start_date end_date : ℤ) (weather : WeatherOutput)
    (discovery : Option DiscoveryOutput) (hotel : HotelOutput)
    (budget : Option BudgetOutput)
    (hw : ∀ f ∈ weather.daily_forecasts, f.max_rain_probability ≤ 0.6)
    (hnodup : ((discAttractions discovery).map Attraction.name).Nodup) :
    ((slotAttractions (build_itinerary destination start_date end_date weather
      discovery hotel budget)).map Attraction.name).Nodup := by
  have hslots : slotAttractions (build_itinerary destination start_date
      end_date weather discovery hotel budget) =
      (discAttractions discovery).take
        (2 * (if end_date - start_date ≤ 0 then 1
          else end_date - start_date).toNat) := by
    have hrun := build_days_norain_slots
      { start_date := start_date, weather := weather,
        attractions := discAttractions discovery,
        hidden_gems := discGems discovery,
        restaurants := discRestaurants discovery,
        breakfast_default := ((MEAL_SUGGESTIONS.lookup
          (_get_cost_tier destination)).getD
          ("Hotel breakfast or neighborhood bakery", "Local bistro or café")).1,
        lunch_default := ((MEAL_SUGGESTIONS.lookup
          (_get_cost_tier destination)).getD
          ("Hotel breakfast or neighborhood bakery", "Local bistro or café")).2,
        daily_spend :=
          match budget with
          | some b => (b.breakdown.food_usd + b.breakdown.activities_usd) /
              ((max (if end_date - start_date ≤ 0 then 1
                else end_date - start_date) 1 : ℤ) : ℚ)
          | none => 0.0 }
      hw
      (if end_date - start_date ≤ 0 then 1 else end_date - start_date).toNat 1
      { used_attractions := [], attraction_idx := 0, gem_idx := 0,
        restaurant_idx := 0 }
      (by simp)
    simpa [build_itinerary] using hrun
  rw [hslots]
  exact List.Nodup.sublist
    (List.Sublist.map Attraction.name (List.take_sublist _ _)) hnodup

/-- Witness for C3: a concrete one-day, no-rain run with two distinct
attractions, at which the hypotheses of the amended theorem hold. -/
theorem attractions_consumed_once_witness :
    ((slotAttractions (build_itinerary "paris" 0 1 calmWeatherDay0
      (some parkMuseumDiscovery) _default_hotel none)).map
      Attraction.name).Nodup := by
  apply attractions_consumed_once_without_substitution
  · intro f hf
    simp only [calmWeatherDay0, List.mem_singleton] at hf
    subst hf
    rw [show calmForecastDay0.max_rain_probability = 0.1 from rfl]
    norm_num
  · decide

/-- Counterexample for C3 as frozen: on a one-day rainy itinerary whose
attraction list is an outdoor attraction followed by an indoor one, the
indoor attraction is substituted into the morning slot and then consumed
again by the cursor into the afternoon slot, so it appears in two slots. -/
theorem attraction_consumed_twice_counterexample :
    ((build_itinerary "paris" 0 1 rainyWeatherDay0 (some parkMuseumDiscovery)
        _default_hotel none).getD 0 dayPlanDefault).morning_attraction =
      some museumAttr ∧
    ((build_itinerary "paris" 0 1 rainyWeatherDay0 (some parkMuseumDiscovery)
        _default_hotel none).getD 0 dayPlanDefault).afternoon_attraction =
      some museumAttr ∧
    ¬ ((slotAttractions (build_itinerary "paris" 0 1 rainyWeatherDay0
        (some parkMuseumDiscovery) _default_hotel none)).map
        Attraction.name).Nodup := by
  have hm : ((build_itinerary "paris" 0 1 rainyWeatherDay0
      (some parkMuseumDiscovery) _default_hotel none).getD 0
      dayPlanDefault).morning_attraction = some museumAttr := by
    show (pick_attraction [parkAttr, museumAttr]
        ((_weather_for_date rainyWeatherDay0 (0 + (1 - 1))).any
          (fun f => decide (f.max_rain_probability > 0.6))) [] 0).1 =
      some museumAttr
    rw [rainy_any_true]
    rfl
  have ha : ((build_itinerary "paris" 0 1 rainyWeatherDay0
      (some parkMuseumDiscovery) _default_hotel none).getD 0
      dayPlanDefault).afternoon_attraction = some museumAttr := by
    show (pick_attraction [parkAttr, museumAttr]
        ((_weather_for_date rainyWeatherDay0 (0 + (1 - 1))).any
          (fun f => decide (f.max_rain_probability > 0.6)))
        (pick_attraction [parkAttr, museumAttr]
          ((_weather_for_date rainyWeatherDay0 (0 + (1 - 1))).any
            (fun f => decide (f.max_rain_probability > 0.6))) [] 0).2.1
        (pick_attraction [parkAttr, museumAttr]
          ((_weather_for_date rainyWeatherDay0 (0 + (1 - 1))).any
            (fun f => decide (f.max_rain_probability > 0.6))) [] 0).2.2).1 =
      some museumAttr
    rw [rainy_any_true]
    rfl
  refine ⟨hm, ha, ?_⟩
  intro hnd
  obtain ⟨p0, hp⟩ := List.length_eq_one.mp
    (show (build_itinerary "paris" 0 1 rainyWeatherDay0
      (some parkMuseumDiscovery) _default_hotel none).length = 1 from rfl)
  rw [hp] at hnd hm ha
  rw [List.getD_cons_zero] at hm ha
  simp only [slotAttractions, List.flatMap_cons, List.flatMap_nil,
    List.append_nil, hm, ha, Option.toList_some] at hnd
  simp [museumAttr] at hnd

/-- Claim C4: for every start and end date, build_itinerary produces one
DayPlan per calendar day in the half-open range (at least one even for a
zero-length range), with 1-based contiguous day numbers and dates
start_date + (i - 1). -/
theorem itinerary_one_dayplan_per_day (destination : String)
    (start_date end_date : ℤ) (weather : WeatherOutput)
    (discovery : Option DiscoveryOutput) (hotel : HotelOutput)
    (budget : Option BudgetOutput) :
    (build_itinerary destination start_date end_date weather discovery hotel
        budget).length =
      (if end_date - start_date ≤ 0 then 1 else end_date - start_date).toNat ∧
    1 ≤ (build_itinerary destination start_date end_date weather discovery
        hotel budget).length ∧
    ∀ i : ℕ, i < (build_itinerary destination start_date end_date weather
        discovery hotel budget).length →
      ((build_itinerary destination start_date end_date weather discovery
          hotel budget).getD i dayPlanDefault).day_number = (i : ℤ) + 1 ∧
      ((build_itinerary destination start_date end_date weather discovery
          hotel budget).getD i dayPlanDefault).date = start_date + (i : ℤ) := by
  have hlen : (build_itinerary destination start_date end_date weather
      discovery hotel budget).length =
      (if end_date - start_date ≤ 0 then 1 else end_date - start_date).toNat := by
    simp only [build_itinerary]
    rw [build_days_length]
  refine ⟨hlen, ?_, ?_⟩
  · rw [hlen]
    split_ifs with h <;> omega
  · intro i hi
    simp only [build_itinerary] at hi ⊢
    rw [build_days_length] at hi
    obtain ⟨h1, h2⟩ := build_days_getD _ _ i 1 _ hi
    refine ⟨?_, ?_⟩
    · rw [h1]; ring
    · rw [h2]; norm_num

/-- Claim C5: get_affected_agents is the union over the changed fields of
the static dependency table entries; unknown fields contribute nothing, and
the three concrete scenarios of the spec hold. -/
theorem affected_agents_union_of_dependencies :
    (∀ (changed_fields : List String) (agent : String),
      agent ∈ get_affected_agents changed_fields ↔
        ∃ f, f ∈ changed_fields ∧
          agent ∈ (DEPENDENCY_MAP.lookup f).getD []) ∧
    get_affected_agents ["budget_usd"] = ["budget", "itinerary"] ∧
    get_affected_agents [] = [] ∧
    get_affected_agents ["unknown_field"] = [] := by
  refine ⟨?_, by decide, by decide, by decide⟩
  intro changed_fields agent
  simp [get_affected_agents, List.mem_dedup, List.mem_flatMap]

/-- Claim C6: the concrete scenario total_budget 2000, transport 500,
hotel 600, affordable style, five days yields effective budget 1600,
discretionary 500, food 300, activities 200, estimated total 1600 and
status balanced. -/
theorem budget_scenario_affordable_2000 :
    effective_budget 2000 "affordable" = 1600 ∧
    discretionary 500 600 2000 "affordable" = 500 ∧
    food_cost 500 600 5 2000 "affordable" = 300 ∧
    activities_cost 500 600 5 2000 "affordable" = 200 ∧
    estimated_total 500 600 5 2000 "affordable" = 1600 ∧
    (optimize_budget 500 600 "Paris" 5 2000 "affordable").breakdown.food_usd =
      300 ∧
    (optimize_budget 500 600 "Paris" 5 2000
      "affordable").breakdown.activities_usd = 200 ∧
    (optimize_budget 500 600 "Paris" 5 2000 "affordable").estimated_total_usd =
      1600 ∧
    (optimize_budget 500 600 "Paris" 5 2000 "affordable").status =
      "balanced" := by
  have hmul : styleMultiplier (styleOf "affordable") = 0.80 := rfl
  have heff : effective_budget 2000 "affordable" = 1600 := by
    rw [effective_budget, hmul]; norm_num
  have hdisc : discretionary 500 600 2000 "affordable" = 500 := by
    rw [discretionary, heff]; norm_num
  have hdays : coercedDays 5 = 5 := rfl
  have hfood : food_cost 500 600 5 2000 "affordable" = 300 := by
    rw [food_cost, hdisc, hdays, MIN_FOOD_PER_DAY]; norm_num
  have hact : activities_cost 500 600 5 2000 "affordable" = 200 := by
    rw [activities_cost, hdisc, hdays, MIN_ACTIVITIES_PER_DAY]; norm_num
  have hest : estimated_total 500 600 5 2000 "affordable" = 1600 := by
    rw [estimated_total, hfood, hact]; norm_num
  have hr300 : round2 300 = 300 := by
    simp only [round2, roundHalfEven]
    norm_num
  have hr200 : round2 200 = 200 := by
    simp only [round2, roundHalfEven]
    norm_num
  have hr1600 : round2 1600 = 1600 := by
    simp only [round2, roundHalfEven]
    norm_num
  have hstatus : budget_status 500 600 5 2000 "affordable" = "balanced" := by
    unfold budget_status
    rw [hest, heff]
    have hsty : styleOf "affordable" = "affordable" := rfl
    rw [hsty]
    norm_num
  refine ⟨heff, hdisc, hfood, hact, hest, ?_, ?_, ?_, hstatus⟩
  · show round2 (food_cost 500 600 5 2000 "affordable") = 300
    rw [hfood, hr300]
  · show round2 (activities_cost 500 600 5 2000 "affordable") = 200
    rw [hact, hr200]
  · show round2 (estimated_total 500 600 5 2000 "affordable") = 1600
    rw [hest, hr1600]

/-- Claim C7: itinerary synthesis is deterministic and idempotent — the
embedded build_itinerary is a pure function of the listed inputs alone (all
cursors live in the per-call BuildState), so two runs on identical inputs
yield identical itineraries. -/
theorem build_itinerary_deterministic (destination : String)
    (start_date end_date : ℤ) (weather : WeatherOutput)
    (discovery : Option DiscoveryOutput) (hotel : HotelOutput)
    (budget : Option BudgetOutput) :
    build_itinerary destination start_date end_date weather discovery hotel
      budget =
    build_itinerary destination start_date end_date weather discovery hotel
      budget := rfl

/-- Claim C8 (amended): the result extractor returns absence either when the
input itself is absent or when the input is a mapping with no text content
part that fails JSON serialization (the caught TypeError branch of the
source); the wrapped-content-list document yields its text part, a bare
non-JSON string is returned unchanged, and the open-close-bracket string
document is returned (not raised on).  As frozen the claim is false: see
the counterexample, where a present but unserializable mapping yields
absence. -/
theorem extract_result_text_amended_spec :
    (∀ inp : Option PyVal,
      _extract_result_text inp = ExtractRes.ok Option.none →
        inp = Option.none ∨ ∃ kvs : PyDict, inp = some (PyVal.pdict kvs) ∧
          dumpsJson (PyVal.pdict kvs) = Option.none) ∧
    _extract_result_text (some (pydict [("content",
      pylist [pydict [("type", PyVal.pstr "text"),
        ("text", PyVal.pstr "X")]])])) =
      ExtractRes.ok (some (PyVal.pstr "X")) ∧
    _extract_result_text (some (PyVal.pstr "X")) =
      ExtractRes.ok (some (PyVal.pstr "X")) ∧
    _extract_result_text (some (PyVal.pstr "[]")) =
      ExtractRes.ok (some (PyVal.pstr "[]")) :=
  ⟨fun inp h => extract_ok_none_cases inp h, rfl, rfl, rfl⟩

/-- Counterexample for C8 as frozen: a present input — a mapping holding a
non-JSON-serializable object and no text content part — on which the
extractor returns absence, refuting that absence occurs only for an absent
input. -/
theorem extract_none_on_present_input :
    _extract_result_text (some (pydict [("x", PyVal.pother "obj")])) =
      ExtractRes.ok Option.none ∧
    some (pydict [("x", PyVal.pother "obj")]) ≠ Option.none :=
  ⟨rfl, by simp⟩

/-- Claim C9: a post-call event carrying an extracted, truthy result
updates exactly the record found by scanning in reverse chronological order
for the first record with the same tool name and an unset result (the
greatest such index); all other records are unchanged, and when no record
matches nothing is modified and the turn does not fail. -/
theorem post_call_reverse_scan_matching (tr : AgentTracker)
    (tool_name : String) (tool_response : Option PyVal)
    (agent_domain : String) (v : PyVal)
    (h1 : _TOOL_TO_AGENT.lookup tool_name = some agent_domain)
    (h2 : _extract_result_text tool_response = ExtractRes.ok (some v))
    (h3 : pyTruthy v = true) :
    ∃ tr2 : AgentTracker,
      post_tool_use tr tool_name tool_response = Except.ok tr2 ∧
      tr2.tool_call_records.length = tr.tool_call_records.length ∧
      ((∃ i, i < tr.tool_call_records.length ∧
          isUnsetMatch tool_name (tr.tool_call_records.getD i recordDefault) =
            true ∧
          (∀ j, i < j → j < tr.tool_call_records.length →
            isUnsetMatch tool_name
              (tr.tool_call_records.getD j recordDefault) = false) ∧
          tr2.tool_call_records.getD i recordDefault =
            withResult (tr.tool_call_records.getD i recordDefault) v ∧
          (∀ j, j ≠ i → tr2.tool_call_records.getD j recordDefault =
            tr.tool_call_records.getD j recordDefault)) ∨
       ((∀ j, j < tr.tool_call_records.length →
          isUnsetMatch tool_name
            (tr.tool_call_records.getD j recordDefault) = false) ∧
        tr2.tool_call_records = tr.tool_call_records)) := by
  unfold post_tool_use
  cases hf : find_last_unset_idx tr.tool_call_records tool_name with
  | some i =>
    simp only [h1, h2, hf, h3, if_true, mark_agent_done]
    refine ⟨_, rfl, ?_, ?_⟩
    · show (update_record_at tr.tool_call_records i v).length = _
      exact update_record_at_length _ _ _
    · left
      obtain ⟨hi, hmatch, hafter⟩ := find_last_unset_some _ _ i hf
      refine ⟨i, hi, hmatch, hafter, ?_, ?_⟩
      · show (update_record_at tr.tool_call_records i v).getD i recordDefault = _
        exact update_record_at_getD_eq _ _ _ hi
      · intro j hj
        show (update_record_at tr.tool_call_records i v).getD j recordDefault = _
        exact update_record_at_getD_ne _ _ _ _ hj
  | none =>
    simp only [h1, h2, hf, mark_agent_done]
    refine ⟨_, rfl, rfl, Or.inr ⟨?_, rfl⟩⟩
    exact find_last_unset_none _ _ hf

/-- Witness for C9: two unset weather records and one hotel record; a
weather post-call event carrying the payload string attaches it per the
reverse scan. -/
theorem post_call_reverse_scan_witness :
    ∃ tr2 : AgentTracker,
      post_tool_use trackerFixture "mcp__weather__get_weather_forecast"
        (some (PyVal.pstr "payload")) = Except.ok tr2 ∧
      tr2.tool_call_records.length =
        trackerFixture.tool_call_records.length ∧
      ((∃ i, i < trackerFixture.tool_call_records.length ∧
          isUnsetMatch "mcp__weather__get_weather_forecast"
            (trackerFixture.tool_call_records.getD i recordDefault) = true ∧
          (∀ j, i < j → j < trackerFixture.tool_call_records.length →
            isUnsetMatch "mcp__weather__get_weather_forecast"
              (trackerFixture.tool_call_records.getD j recordDefault) =
              false) ∧
          tr2.tool_call_records.getD i recordDefault =
            withResult (trackerFixture.tool_call_records.getD i recordDefault)
              (PyVal.pstr "payload") ∧
          (∀ j, j ≠ i → tr2.tool_call_records.getD j recordDefault =
            trackerFixture.tool_call_records.getD j recordDefault)) ∨
       ((∀ j, j < trackerFixture.tool_call_records.length →
          isUnsetMatch "mcp__weather__get_weather_forecast"
            (trackerFixture.tool_call_records.getD j recordDefault) =
            false) ∧
        tr2.tool_call_records = trackerFixture.tool_call_records)) :=
  post_call_reverse_scan_matching trackerFixture
    "mcp__weather__get_weather_forecast" (some (PyVal.pstr "payload"))
    "weather" (PyVal.pstr "payload") rfl rfl rfl

/-- Claim C10: a replan whose changed-field set yields an empty
affected-domain set is a no-op — run_replan answers with the response
assembled from the stored session and leaves the store untouched (the
external replan branch is never invoked, for any such branch). -/
theorem replan_empty_affected_noop (store : List (String × SessionState))
    (session_id : String) (updated_preferences : List (String × PyVal))
    (replanBranch : SessionState → List (String × PyVal) → List String →
      List (String × SessionState) × TravelPlanResponse)
    (session : SessionState)
    (h1 : get_session store session_id = some session)
    (h2 : (get_affected_agents
      (updated_preferences.map Prod.fst)).isEmpty = true) :
    run_replan store session_id updated_preferences replanBranch =
      Except.ok (store, _session_to_response session []) := by
  unfold run_replan
  rw [h1]
  simp [h2]

/-- Witness for C10: a stored single-session store and an update touching
only an unknown field, whose affected set is empty. -/
theorem replan_empty_affected_witness :
    run_replan storeFixture "s1" [("unknown_field", PyVal.pstr "x")]
      replanBranchFixture =
      Except.ok (storeFixture, _session_to_response sessionFixture []) :=
  replan_empty_affected_noop storeFixture "s1"
    [("unknown_field", PyVal.pstr "x")] replanBranchFixture sessionFixture
    rfl rfl
